import Mathlib

/-!
# Shallow embedding of `src/server.js` (wallet dashboard aggregator)

The program fetches token balances, activity and collectibles for a wallet
address from an upstream HTTP API, reshapes and formats them, and renders a
view model.  We embed the route handler and the three fetch functions as pure
Lean functions over explicit upstream outcomes.

JavaScript numbers arising in this program are modelled by `JsNum`: either
`NaN` or an exact rational.  The program only ever produces finite values or
`NaN` (no Infinity reaches any observed value: the single division has a
nonzero power-of-ten divisor), and the specification states its numeric
properties in exact arithmetic, so rationals are the faithful carrier at the
specification's level of precision.
-/

inductive JsNum where
  | nan : JsNum
  | num : ℚ → JsNum
deriving DecidableEq, Repr

/-- A JavaScript value that the variable `totalWalletUSDValue` can hold in the
route handler: it starts as the number `0`, is reassigned the *string*
produced by `numbro(...).format('$0,0.00')`, and may later be reassigned the
numeric reduce result. -/
inductive JsVal where
  | num : JsNum → JsVal
  | str : String → JsVal
deriving DecidableEq, Repr

/-- Runtime error raised by the handler.  `typeError` models the JavaScript
`TypeError` raised by calling `.toFixed(2)` on a string value. -/
inductive JsError where
  | typeError : JsError
deriving DecidableEq, Repr

/-- Value of a list of decimal digit characters, most significant first. -/
def digitsToNat (cs : List Char) : Nat :=
  cs.foldl (fun acc c => 10 * acc + (c.toNat - '0'.toNat)) 0

/-- Optional leading sign, as consumed by `parseFloat` / `parseInt`:
returns (isNegative, rest). -/
def parseSign : List Char → Bool × List Char
  | '-' :: rest => (true, rest)
  | '+' :: rest => (false, rest)
  | cs => (false, cs)

/-- `10^z` over ℚ for an integer exponent. -/
def tenPowInt (z : ℤ) : ℚ :=
  if 0 ≤ z then ((10 : ℚ) ^ z.toNat) else 1 / (10 : ℚ) ^ (-z).toNat

/-- Exponent digits of a float literal (after `e`/`E`): an optional sign and
digits; an empty digit run contributes exponent `0` (as in JS, where
`parseFloat("1e")` is `1`). -/
def expDigitsVal (cs : List Char) : ℤ :=
  let sn := parseSign cs
  let ds := sn.2.takeWhile Char.isDigit
  if ds.isEmpty then 0
  else if sn.1 then -(digitsToNat ds : ℤ) else (digitsToNat ds : ℤ)

/-- Exponent factor position: only directly after the mantissa. -/
def expValue : List Char → ℤ
  | 'e' :: rest => expDigitsVal rest
  | 'E' :: rest => expDigitsVal rest
  | _ => 0

/-- Model of JavaScript's `parseFloat`: skip leading whitespace, optional
sign, decimal digits with optional fractional part and optional exponent;
trailing garbage is ignored; if no digits are consumed the result is `NaN`.
(The `Infinity` literal, which the upstream numeric-string fields never
contain, is outside the modelled fragment.) -/
def jsParseFloat (s : String) : JsNum :=
  let cs := s.data.dropWhile Char.isWhitespace
  let sn := parseSign cs
  let ip := sn.2.span Char.isDigit
  let fr :=
    match ip.2 with
    | '.' :: rest => rest.span Char.isDigit
    | _ => (([] : List Char), ip.2)
  if ip.1.isEmpty ∧ fr.1.isEmpty then JsNum.nan
  else
    let mantissa : ℚ :=
      (digitsToNat ip.1 : ℚ) + (digitsToNat fr.1 : ℚ) / (10 : ℚ) ^ fr.1.length
    let v := mantissa * tenPowInt (expValue fr.2)
    JsNum.num (if sn.1 then -v else v)

/-- Model of JavaScript's `parseInt` with no radix argument on a decimal
string: skip leading whitespace, optional sign, then leading decimal digits;
`none` models `NaN` (no digits).  (The `0x` hex prefix never occurs in the
`decimals` field and is outside the modelled fragment.) -/
def jsParseInt (s : String) : Option ℤ :=
  let cs := s.data.dropWhile Char.isWhitespace
  let sn := parseSign cs
  let ds := sn.2.takeWhile Char.isDigit
  if ds.isEmpty then none
  else if sn.1 then some (-(digitsToNat ds : ℤ)) else some (digitsToNat ds : ℤ)

/-- `Math.pow(10, d)` where `d` came from `parseInt`: `NaN` propagates. -/
def jsPow10 : Option ℤ → JsNum
  | none => JsNum.nan
  | some z => JsNum.num (tenPowInt z)

/-- JavaScript division as used at `parseFloat(token.amount) / Math.pow(10,
parseInt(token.decimals))`.  `NaN` propagates.  The divisor in the program is
always `10^z ≠ 0` or `NaN`, so the zero-divisor branch (JS would give
`±Infinity`/`NaN`) is unreachable and collapsed to `NaN`. -/
def jsDiv : JsNum → JsNum → JsNum
  | JsNum.nan, _ => JsNum.nan
  | _, JsNum.nan => JsNum.nan
  | JsNum.num a, JsNum.num b => if b = 0 then JsNum.nan else JsNum.num (a / b)

/-- Decimal digit characters of a natural number, most significant first;
structurally recursive on a fuel bound so that it reduces definitionally
(`n + 1` units of fuel always suffice since `n / 10 < n` for `n ≥ 10`). -/
def natDecimalCharsAux : Nat → Nat → List Char
  | 0, _ => []
  | fuel + 1, n =>
    if n < 10 then [Nat.digitChar n]
    else natDecimalCharsAux fuel (n / 10) ++ [Nat.digitChar (n % 10)]

/-- Decimal digit characters of a natural number, most significant first. -/
def natDecimalChars (n : Nat) : List Char :=
  natDecimalCharsAux (n + 1) n

/-- Exactly two decimal digit characters (zero padded) for `m < 100`. -/
def pad2Chars (m : Nat) : List Char :=
  [Nat.digitChar (m / 10), Nat.digitChar (m % 10)]

/-- Insert a `,` every three characters, counting from the right (input is the
reversed digit list). -/
def groupThousandsAux : List Char → List Char
  | a :: b :: c :: d :: rest => a :: b :: c :: ',' :: groupThousandsAux (d :: rest)
  | l => l

/-- Thousands grouping of a digit list. -/
def groupThousands (cs : List Char) : List Char :=
  (groupThousandsAux cs.reverse).reverse

/-- Model of JavaScript's `Number.prototype.toFixed(2)` on a finite value:
sign of the input, then the magnitude rounded to the nearest hundredth (ties
away from the decimal grid's lower side, i.e. ties up), rendered with exactly
two digits after the point and no grouping. -/
def ratToFixed2 (q : ℚ) : String :=
  let n := (⌊100 * |q| + 1 / 2⌋ : ℤ).toNat
  String.mk ((if q < 0 then ['-'] else []) ++
    natDecimalChars (n / 100) ++ '.' :: pad2Chars (n % 100))

/-- `toFixed(2)` on a `JsNum`: `NaN.toFixed(2)` is the string `"NaN"`. -/
def jsNumToFixed2 : JsNum → String
  | JsNum.nan => "NaN"
  | JsNum.num q => ratToFixed2 q

/-- `x.toFixed(2)` on a JavaScript value: on a string it raises a
`TypeError` (strings have no `toFixed` method). -/
def jsToFixedVal : JsVal → Except JsError String
  | JsVal.str _ => Except.error JsError.typeError
  | JsVal.num n => Except.ok (jsNumToFixed2 n)

/-- Model of `numbro(x).format('$0,0.00')`: leading currency symbol, grouped
integer part, exactly two decimals (for `NaN` input the rendered value
contains `NaN`). -/
def formatCurrency : JsNum → String
  | JsNum.nan => "$NaN"
  | JsNum.num q =>
    let n := (⌊100 * |q| + 1 / 2⌋ : ℤ).toNat
    String.mk ((if q < 0 then ['-'] else []) ++ '$' ::
      groupThousands (natDecimalChars (n / 100)) ++ '.' :: pad2Chars (n % 100))

/-- Model of `numbro(x).format('0,0.[00]A')`: abbreviated (K/M/B/T) with up to
two decimals, trailing zeros trimmed, grouped integer part. -/
def formatAbbrev : JsNum → String
  | JsNum.nan => "NaN"
  | JsNum.num q =>
    let a := |q|
    let vs : ℚ × List Char :=
      if a ≥ 1000000000000 then (a / 1000000000000, ['T'])
      else if a ≥ 1000000000 then (a / 1000000000, ['B'])
      else if a ≥ 1000000 then (a / 1000000, ['M'])
      else if a ≥ 1000 then (a / 1000, ['K'])
      else (a, [])
    let n := (⌊100 * vs.1 + 1 / 2⌋ : ℤ).toNat
    let fracPart : List Char :=
      if n % 100 = 0 then []
      else if n % 10 = 0 then ['.', Nat.digitChar (n % 100 / 10)]
      else '.' :: pad2Chars (n % 100)
    String.mk ((if q < 0 then ['-'] else []) ++
      groupThousands (natDecimalChars (n / 100)) ++ fracPart ++ vs.2)

/-!
## Data model

Upstream records, as consumed by `src/server.js`.  A raw balances record has
the fields the code reads (`symbol`, `amount`, `decimals`, `value_usd`) plus
the remaining metadata, which the code never inspects and passes through
unchanged; we collapse the untouched remainder into one opaque `metadata`
field.  Activity and collectible items are fully opaque to the server. -/

structure RawToken where
  symbol : String
  amount : String
  decimals : String
  value_usd : String
  metadata : String
deriving DecidableEq, Repr

/-- A balances record after `getWalletBalances` has processed it: all original
fields plus the two derived presentation fields added by the spread
`{ ...token, valueUSDFormatted, amountFormatted }`. -/
structure Token where
  symbol : String
  amount : String
  decimals : String
  value_usd : String
  metadata : String
  valueUSDFormatted : String
  amountFormatted : String
deriving DecidableEq, Repr

/-- The original upstream fields of a processed token. -/
def Token.toRaw (t : Token) : RawToken :=
  ⟨t.symbol, t.amount, t.decimals, t.value_usd, t.metadata⟩

structure ActivityItem where
  raw : String
deriving DecidableEq, Repr

structure CollectibleItem where
  raw : String
deriving DecidableEq, Repr

/-- JSON body of a 2xx balances response; `data.balances || []` means the
`balances` key may be absent. -/
structure BalancesPayload where
  balances : Option (List RawToken)
deriving DecidableEq, Repr

/-- JSON body of a 2xx activity response (`data.activity || []`). -/
structure ActivityPayload where
  activity : Option (List ActivityItem)
deriving DecidableEq, Repr

/-- JSON body of a 2xx collectibles response (`data.collectibles || []`). -/
structure CollectiblesPayload where
  collectibles : Option (List CollectibleItem)
deriving DecidableEq, Repr

/-- Outcome of one outbound `fetch`: a network error (the `fetch` promise
rejects), a non-2xx response with its status (`response.ok` false, e.g. HTTP
500), a 2xx response whose body fails to parse as JSON, or a 2xx response
with a parsed body. -/
inductive FetchOutcome (β : Type) where
  | netError : FetchOutcome β
  | httpError (status : Nat) : FetchOutcome β
  | badJson : FetchOutcome β
  | ok (body : β) : FetchOutcome β
deriving DecidableEq, Repr

/-- The outcomes on which the fetch function's `try` block throws (network
error, non-2xx response, malformed payload). -/
def FetchOutcome.isFail {β : Type} : FetchOutcome β → Bool
  | FetchOutcome.ok _ => false
  | _ => true

/-!
## Operations (from `src/server.js`, lines 29–132)

Each fetch function takes the wallet address and the outcome of its upstream
call, and returns the list it produces together with the number of outbound
HTTP calls it made (`0` when the empty-address guard fires, `1` otherwise:
even a failing call was issued). -/

/-- The derived human-readable amount of a raw token:
`parseFloat(token.amount) / Math.pow(10, parseInt(token.decimals))`. -/
def derivedAmount (token : RawToken) : JsNum :=
  jsDiv (jsParseFloat token.amount) (jsPow10 (jsParseInt token.decimals))

/-- The body of the `map` in `getWalletBalances`: keep every original field,
add `valueUSDFormatted` and `amountFormatted`. -/
def formatToken (token : RawToken) : Token :=
  { symbol := token.symbol
    amount := token.amount
    decimals := token.decimals
    value_usd := token.value_usd
    metadata := token.metadata
    valueUSDFormatted := formatCurrency (jsParseFloat token.value_usd)
    amountFormatted := formatAbbrev (derivedAmount token) }

/-- `getWalletBalances` (lines 29–76): empty-address guard, then on success
map each balance to a formatted token and filter out the spam symbol
`'RTFKT'`; on any failure the `catch` returns the empty array. -/
def getWalletBalances (walletAddress : String)
    (upstream : FetchOutcome BalancesPayload) : List Token × Nat :=
  if walletAddress = "" then ([], 0)
  else
    match upstream with
    | FetchOutcome.ok data =>
      ((((data.balances.getD []).map formatToken).filter
        (fun token => !(token.symbol == "RTFKT"))), 1)
    | _ => ([], 1)

/-- `getWalletActivity` (lines 77–105): empty-address guard; on success
`data.activity || []`; on any failure the `catch` returns the empty array. -/
def getWalletActivity (walletAddress : String) (_limit : Nat)
    (upstream : FetchOutcome ActivityPayload) : List ActivityItem × Nat :=
  if walletAddress = "" then ([], 0)
  else
    match upstream with
    | FetchOutcome.ok data => (data.activity.getD [], 1)
    | _ => ([], 1)

/-- `getWalletCollectibles` (lines 107–132). -/
def getWalletCollectibles (walletAddress : String) (_limit : Nat)
    (upstream : FetchOutcome CollectiblesPayload) : List CollectibleItem × Nat :=
  if walletAddress = "" then ([], 0)
  else
    match upstream with
    | FetchOutcome.ok data => (data.collectibles.getD [], 1)
    | _ => ([], 1)

/-!
## Route handler (`app.get('/')`, lines 135–189) -/

/-- `parseFloat(token.value_usd)` with `NaN` treated as `0`, the summand of
the post-fetch `reduce` (lines 169–172). -/
def usdValueOrZero (token : Token) : ℚ :=
  match jsParseFloat token.value_usd with
  | JsNum.nan => 0
  | JsNum.num v => v

/-- The pre-fetch aggregation loop (lines 150–157): for each token, add
`parseFloat(token.value_usd)` to the running total unless it is `NaN`. -/
def preFetchLoop (total : ℚ) (tokens : List Token) : ℚ :=
  tokens.foldl
    (fun acc token =>
      match jsParseFloat token.value_usd with
      | JsNum.nan => acc
      | JsNum.num v => acc + v) total

/-- The post-fetch `tokens.reduce` (lines 168–173). -/
def postFetchReduce (tokens : List Token) : ℚ :=
  tokens.foldl (fun sum token => sum + usdValueOrZero token) 0

/-- The initial value of the handler's `tokens` variable (line 141). -/
def initialTokens : List Token := []

/-- The view model passed to `res.render('wallet', {...})` (lines 180–188). -/
structure ViewModel where
  walletAddress : String
  currentTab : String
  totalWalletUSDValue : String
  tokens : List Token
  activities : List ActivityItem
  collectibles : List CollectibleItem
  errorMessage : Option String
deriving DecidableEq, Repr

/-- Result of one request: either a rendered page (HTTP 200 with the view
model) or the runtime error that escaped the handler, plus the number of
outbound HTTP calls made while serving the request. -/
structure HandlerResult where
  response : Except JsError ViewModel
  outboundCalls : Nat
deriving Repr

/-- The `res.render` call (lines 180–188).  Evaluating the argument
`` `$${totalWalletUSDValue.toFixed(2)}` `` happens before the render: if
`totalWalletUSDValue` holds a string, `.toFixed` raises and nothing is
rendered. -/
def renderResult (wa tabVal : String) (total : JsVal) (tokens : List Token)
    (acts : List ActivityItem) (cols : List CollectibleItem)
    (err : Option String) (calls : Nat) : HandlerResult :=
  match jsToFixedVal total with
  | Except.error e => ⟨Except.error e, calls⟩
  | Except.ok s => ⟨Except.ok ⟨wa, tabVal, "$" ++ s, tokens, acts, cols, err⟩, calls⟩

/-- The route handler.  `walletAddress`/`tab` are the query parameters
(`none` = absent, defaulted by the destructuring to `''` / `'tokens'`); the
three `FetchOutcome`s are the outcomes the upstream API would give the three
concurrent calls; `orchestrationFault` is true when an exception escapes the
per-resource try-blocks at the `await Promise.all` (the only point of the
orchestration after line 159 at which the `try` can fail), transferring
control to the `catch` of lines 174–177. -/
def handler (walletAddress : Option String) (tab : Option String)
    (balancesUpstream : FetchOutcome BalancesPayload)
    (activityUpstream : FetchOutcome ActivityPayload)
    (collectiblesUpstream : FetchOutcome CollectiblesPayload)
    (orchestrationFault : Bool) : HandlerResult :=
  let wa := walletAddress.getD ""
  let tabVal := tab.getD "tokens"
  if wa = "" then
    renderResult wa tabVal (JsVal.num (JsNum.num 0)) initialTokens [] [] none 0
  else
    let totalAfterLoop : ℚ :=
      if initialTokens.length > 0 then preFetchLoop 0 initialTokens else 0
    let totalBeforeAwait : JsVal :=
      JsVal.str (formatCurrency (JsNum.num totalAfterLoop))
    let bal := getWalletBalances wa balancesUpstream
    let act := getWalletActivity wa 25 activityUpstream
    let col := getWalletCollectibles wa 50 collectiblesUpstream
    let calls := bal.2 + act.2 + col.2
    if orchestrationFault then
      renderResult wa tabVal totalBeforeAwait initialTokens [] []
        (some "Failed to fetch wallet data. Please try again.") calls
    else
      let tokens := bal.1
      let finalTotal : JsVal :=
        if tokens.length > 0 then JsVal.num (JsNum.num (postFetchReduce tokens))
        else totalBeforeAwait
      renderResult wa tabVal finalTotal tokens act.1 col.1 none calls

/-- Modelled from the claim C10's description: the same route handler with
the dead pre-fetch aggregation loop (lines 149–157) removed; the total is
formatted directly from its initial value `0`. -/
def handlerWithoutPreFetchLoop (walletAddress : Option String)
    (tab : Option String)
    (balancesUpstream : FetchOutcome BalancesPayload)
    (activityUpstream : FetchOutcome ActivityPayload)
    (collectiblesUpstream : FetchOutcome CollectiblesPayload)
    (orchestrationFault : Bool) : HandlerResult :=
  let wa := walletAddress.getD ""
  let tabVal := tab.getD "tokens"
  if wa = "" then
    renderResult wa tabVal (JsVal.num (JsNum.num 0)) initialTokens [] [] none 0
  else
    let totalBeforeAwait : JsVal :=
      JsVal.str (formatCurrency (JsNum.num 0))
    let bal := getWalletBalances wa balancesUpstream
    let act := getWalletActivity wa 25 activityUpstream
    let col := getWalletCollectibles wa 50 collectiblesUpstream
    let calls := bal.2 + act.2 + col.2
    if orchestrationFault then
      renderResult wa tabVal totalBeforeAwait initialTokens [] []
        (some "Failed to fetch wallet data. Please try again.") calls
    else
      let tokens := bal.1
      let finalTotal : JsVal :=
        if tokens.length > 0 then JsVal.num (JsNum.num (postFetchReduce tokens))
        else totalBeforeAwait
      renderResult wa tabVal finalTotal tokens act.1 col.1 none calls

/-- The value held by `totalWalletUSDValue` immediately before the fetches
are awaited (after line 159), for a non-empty address. -/
def handlerPreAwaitTotal : JsVal :=
  JsVal.str (formatCurrency (JsNum.num
    (if initialTokens.length > 0 then preFetchLoop 0 initialTokens else 0)))

/-- `true` iff the string ends in a period followed by exactly two decimal
digits (so the fraction shown after its last period has exactly two
places). -/
def endsInTwoDecimals (s : String) : Bool :=
  match s.data.reverse with
  | a :: b :: c :: _ => a.isDigit && b.isDigit && (c = '.')
  | _ => false

/-!
## Concrete upstream records used as test inputs -/

/-- An upstream balances record whose USD value is `"1234.5"`. -/
def tokPEPE : RawToken := ⟨"PEPE", "100", "2", "1234.5", "meta"⟩

/-- An upstream balances record with USD value `"1000.25"`. -/
def tokAAA : RawToken := ⟨"AAA", "5", "0", "1000.25", "m"⟩

/-- An upstream balances record with the non-numeric USD value `"x"`. -/
def tokBBB : RawToken := ⟨"BBB", "7", "0", "x", "m"⟩

/-- An upstream balances record with a numeric amount and decimals. -/
def tokUSDC : RawToken := ⟨"USDC", "12345", "2", "1.0", "m"⟩

/-- An upstream balances record with a non-numeric amount string. -/
def tokBadAmount : RawToken := ⟨"XYZ", "abc", "18", "1.0", "m"⟩

/-- A concrete collectible record. -/
def nftOne : CollectibleItem := ⟨"nft1"⟩

/-!
## Helper lemmas -/

lemma digitChar_isDigit : ∀ k, k < 10 → (Nat.digitChar k).isDigit = true := by
  decide

lemma toRaw_formatToken (r : RawToken) : Token.toRaw (formatToken r) = r := rfl

lemma foldl_usd (l : List Token) :
    ∀ init : ℚ, l.foldl (fun s t => s + usdValueOrZero t) init
      = init + (l.map usdValueOrZero).sum := by
  induction l with
  | nil => intro init; simp
  | cons t rest ih => intro init; simp [List.foldl_cons, ih, add_assoc]

lemma postFetchReduce_eq_sum (l : List Token) :
    postFetchReduce l = (l.map usdValueOrZero).sum := by
  unfold postFetchReduce
  rw [foldl_usd]
  simp

lemma endsInTwoDecimals_mk (p : List Char) (m : Nat) (hm : m < 100) :
    endsInTwoDecimals (String.mk (p ++ '.' :: pad2Chars m)) = true := by
  unfold endsInTwoDecimals pad2Chars
  simp only [List.reverse_append, List.reverse_cons, List.reverse_nil,
    List.nil_append, List.cons_append, List.append_assoc]
  simp [digitChar_isDigit (m % 10) (Nat.mod_lt _ (by omega)),
    digitChar_isDigit (m / 10) (by omega)]

lemma endsInTwoDecimals_ratToFixed2 (q : ℚ) :
    endsInTwoDecimals ("$" ++ ratToFixed2 q) = true := by
  unfold ratToFixed2
  have h : ("$" ++ String.mk ((if q < 0 then ['-'] else []) ++
      natDecimalChars ((⌊100 * |q| + 1 / 2⌋ : ℤ).toNat / 100) ++
      '.' :: pad2Chars ((⌊100 * |q| + 1 / 2⌋ : ℤ).toNat % 100)))
      = String.mk ('$' :: ((if q < 0 then ['-'] else []) ++
      natDecimalChars ((⌊100 * |q| + 1 / 2⌋ : ℤ).toNat / 100) ++
      '.' :: pad2Chars ((⌊100 * |q| + 1 / 2⌋ : ℤ).toNat % 100))) := rfl
  rw [h]
  have h2 := endsInTwoDecimals_mk ('$' :: ((if q < 0 then ['-'] else []) ++
    natDecimalChars ((⌊100 * |q| + 1 / 2⌋ : ℤ).toNat / 100)))
    ((⌊100 * |q| + 1 / 2⌋ : ℤ).toNat % 100) (Nat.mod_lt _ (by omega))
  simpa using h2

lemma dollar_head (s : String) : ("$" ++ s).data.head? = some '$' := rfl

lemma renderResult_ok_inv {wa tabVal : String} {total : JsVal}
    {tokens : List Token} {acts : List ActivityItem} {cols : List CollectibleItem}
    {err : Option String} {calls : Nat} {vm : ViewModel}
    (h : (renderResult wa tabVal total tokens acts cols err calls).response
      = Except.ok vm) :
    vm.currentTab = tabVal := by
  unfold renderResult at h
  cases htf : jsToFixedVal total with
  | error e => rw [htf] at h; simp at h
  | ok s =>
    rw [htf] at h
    simp only [Except.ok.injEq] at h
    rw [← h]

lemma handler_success (wa : String) (tab : Option String)
    (bU : FetchOutcome BalancesPayload) (aU : FetchOutcome ActivityPayload)
    (cU : FetchOutcome CollectiblesPayload)
    (hwa : wa ≠ "") (hne : (getWalletBalances wa bU).1 ≠ []) :
    (handler (some wa) tab bU aU cU false).response =
      Except.ok ⟨wa, tab.getD "tokens",
        "$" ++ ratToFixed2 (postFetchReduce (getWalletBalances wa bU).1),
        (getWalletBalances wa bU).1,
        (getWalletActivity wa 25 aU).1,
        (getWalletCollectibles wa 50 cU).1, none⟩ := by
  simp only [handler, Option.getD_some, if_neg hwa, Bool.false_eq_true, if_false]
  rw [if_pos (by simpa using List.length_pos.mpr hne)]
  simp [renderResult, jsToFixedVal, jsNumToFixed2]

lemma handler_emptyTokens (wa : String) (tab : Option String)
    (bU : FetchOutcome BalancesPayload) (aU : FetchOutcome ActivityPayload)
    (cU : FetchOutcome CollectiblesPayload)
    (hwa : wa ≠ "") (hb : (getWalletBalances wa bU).1 = []) :
    (handler (some wa) tab bU aU cU false).response
      = Except.error JsError.typeError := by
  simp only [handler, Option.getD_some, if_neg hwa, Bool.false_eq_true, if_false]
  rw [hb]
  simp [renderResult, jsToFixedVal]

lemma handler_fault (wa : String) (tab : Option String)
    (bU : FetchOutcome BalancesPayload) (aU : FetchOutcome ActivityPayload)
    (cU : FetchOutcome CollectiblesPayload) (hwa : wa ≠ "") :
    (handler (some wa) tab bU aU cU true).response
      = Except.error JsError.typeError := by
  simp only [handler, Option.getD_some, if_neg hwa]
  simp [renderResult, jsToFixedVal]

lemma getWalletBalances_fail (wa : String) (e : FetchOutcome BalancesPayload)
    (he : e.isFail = true) : (getWalletBalances wa e).1 = [] := by
  unfold getWalletBalances
  by_cases hwa : wa = ""
  · simp [hwa]
  · cases e with
    | ok b => simp [FetchOutcome.isFail] at he
    | netError => simp [hwa]
    | httpError s => simp [hwa]
    | badJson => simp [hwa]

lemma getWalletActivity_fail (wa : String) (n : Nat)
    (e : FetchOutcome ActivityPayload) (he : e.isFail = true) :
    (getWalletActivity wa n e).1 = [] := by
  unfold getWalletActivity
  by_cases hwa : wa = ""
  · simp [hwa]
  · cases e with
    | ok b => simp [FetchOutcome.isFail] at he
    | netError => simp [hwa]
    | httpError s => simp [hwa]
    | badJson => simp [hwa]

lemma map_toRaw_filter (l : List RawToken) :
    (((l.map formatToken).filter
      (fun token => !(token.symbol == "RTFKT"))).map Token.toRaw)
      = l.filter (fun r => !(r.symbol == "RTFKT")) := by
  induction l with
  | nil => rfl
  | cons r rest ih =>
    simp only [List.map_cons, List.filter_cons]
    by_cases h : (r.symbol == "RTFKT") = true
    · simpa [show (formatToken r).symbol = r.symbol from rfl, h] using ih
    · simp only [Bool.not_eq_true] at h
      simp [show (formatToken r).symbol = r.symbol from rfl, h, ih,
        toRaw_formatToken]

/-!
## Claims -/

/-- C1 (code_bug): for a non-empty wallet address, when the balances upstream
call fails (network error, non-2xx such as HTTP 500, or malformed payload),
`getWalletBalances` does return an empty sequence without raising — but the
route handler does not render HTTP 200: because the post-fetch token list is
empty, `totalWalletUSDValue` still holds the string `"$0.00"` assigned at
line 159, and `totalWalletUSDValue.toFixed(2)` at line 183 raises a
`TypeError`, so no page is rendered. -/
theorem C1_balances_failure_empty_but_render_crashes (wa : String)
    (tab : Option String) (e : FetchOutcome BalancesPayload)
    (aU : FetchOutcome ActivityPayload) (cU : FetchOutcome CollectiblesPayload)
    (hwa : wa ≠ "") (he : e.isFail = true) :
    (getWalletBalances wa e).1 = [] ∧
    (handler (some wa) tab e aU cU false).response
      = Except.error JsError.typeError := by
  have h1 := getWalletBalances_fail wa e he
  exact ⟨h1, handler_emptyTokens wa tab e aU cU hwa h1⟩

/-- C1 witness: the failing input — address `"0xabc"`, balances upstream
HTTP 500, the other two fetches succeeding with empty bodies. -/
theorem C1_witness :
    (getWalletBalances "0xabc" (FetchOutcome.httpError 500)).1 = [] ∧
    (handler (some "0xabc") none (FetchOutcome.httpError 500)
      (FetchOutcome.ok ⟨some []⟩) (FetchOutcome.ok ⟨some []⟩) false).response
      = Except.error JsError.typeError :=
  C1_balances_failure_empty_but_render_crashes "0xabc" none
    (FetchOutcome.httpError 500) (FetchOutcome.ok ⟨some []⟩)
    (FetchOutcome.ok ⟨some []⟩) (by decide) (by decide)

lemma jsParseFloat_1234_5 : jsParseFloat "1234.5" = JsNum.num (2469 / 2) := by
  have h : jsParseFloat "1234.5"
      = JsNum.num (((digitsToNat ['1', '2', '3', '4'] : ℚ)
          + (digitsToNat ['5'] : ℚ) / (10 : ℚ) ^ 1) * tenPowInt 0) := rfl
  rw [h, show digitsToNat ['1', '2', '3', '4'] = 1234 from rfl,
    show digitsToNat ['5'] = 5 from rfl]
  norm_num [tenPowInt]

lemma getWalletBalances_tokPEPE :
    (getWalletBalances "0xabc" (FetchOutcome.ok ⟨some [tokPEPE]⟩)).1
      = [formatToken tokPEPE] := by
  simp [getWalletBalances, show (formatToken tokPEPE).symbol = "PEPE" from rfl]

lemma postFetchReduce_tokPEPE :
    postFetchReduce [formatToken tokPEPE] = 2469 / 2 := by
  simp [postFetchReduce, usdValueOrZero,
    show (formatToken tokPEPE).value_usd = "1234.5" from rfl, jsParseFloat_1234_5]

lemma ratToFixed2_half2469 : ratToFixed2 (2469 / 2) = "1234.50" := by
  simp only [ratToFixed2]
  rw [abs_of_nonneg (by norm_num : (0:ℚ) ≤ 2469 / 2),
    show ⌊100 * ((2469:ℚ) / 2) + 1 / 2⌋ = (123450 : ℤ) from by norm_num,
    if_neg (by norm_num : ¬((2469:ℚ) / 2 < 0))]
  decide

lemma ratToFixed2_zero : ratToFixed2 0 = "0.00" := by
  simp only [ratToFixed2]
  rw [abs_zero, show ⌊100 * (0:ℚ) + 1 / 2⌋ = (0 : ℤ) from by norm_num,
    if_neg (by norm_num : ¬((0:ℚ) < 0))]
  decide

lemma formatCurrency_zero : formatCurrency (JsNum.num 0) = "$0.00" := by
  simp only [formatCurrency]
  rw [abs_zero, show ⌊100 * (0:ℚ) + 1 / 2⌋ = (0 : ℤ) from by norm_num,
    if_neg (by norm_num : ¬((0:ℚ) < 0))]
  decide

/-- C2 counterexample: with one retained token of USD value `1234.5`, the
rendered portfolio total is `"$1234.50"` — `toFixed(2)` at line 183 inserts
no thousands separator — so it is not `"$1,234.50"` as the claim states. -/
theorem C2_counterexample :
    ∃ vm, (handler (some "0xabc") none (FetchOutcome.ok ⟨some [tokPEPE]⟩)
        (FetchOutcome.ok ⟨some []⟩) (FetchOutcome.ok ⟨some []⟩) false).response
        = Except.ok vm
      ∧ vm.totalWalletUSDValue = "$1234.50"
      ∧ vm.totalWalletUSDValue ≠ "$1,234.50" := by
  have hne : (getWalletBalances "0xabc"
      (FetchOutcome.ok ⟨some [tokPEPE]⟩)).1 ≠ [] := by
    rw [getWalletBalances_tokPEPE]
    simp
  have h := handler_success "0xabc" none (FetchOutcome.ok ⟨some [tokPEPE]⟩)
    (FetchOutcome.ok ⟨some []⟩) (FetchOutcome.ok ⟨some []⟩) (by decide) hne
  rw [getWalletBalances_tokPEPE, postFetchReduce_tokPEPE, ratToFixed2_half2469] at h
  exact ⟨_, h, rfl, by decide⟩

/-- C2 as amended: for a non-empty address and a *non-empty* retained token
set (with an empty one the handler throws instead of rendering, see C1), the
rendered total equals the sum of each retained token's `value_usd` with
non-numeric values treated as `0`, formatted by `toFixed(2)`: a leading
currency symbol and exactly two decimal places, but *no* thousands
separator. -/
theorem C2_amended_total_is_sum_two_decimals_no_separator (wa : String)
    (tab : Option String) (bU : FetchOutcome BalancesPayload)
    (aU : FetchOutcome ActivityPayload) (cU : FetchOutcome CollectiblesPayload)
    (hwa : wa ≠ "") (hne : (getWalletBalances wa bU).1 ≠ []) :
    ∃ vm, (handler (some wa) tab bU aU cU false).response = Except.ok vm
      ∧ vm.tokens = (getWalletBalances wa bU).1
      ∧ vm.totalWalletUSDValue
          = "$" ++ ratToFixed2 ((vm.tokens.map usdValueOrZero).sum)
      ∧ endsInTwoDecimals vm.totalWalletUSDValue = true
      ∧ vm.totalWalletUSDValue.data.head? = some '$' := by
  refine ⟨_, handler_success wa tab bU aU cU hwa hne, rfl, ?_, ?_, ?_⟩
  · simp [postFetchReduce_eq_sum]
  · exact endsInTwoDecimals_ratToFixed2 _
  · exact dollar_head _

lemma getWalletBalances_AAA_BBB :
    (getWalletBalances "0xdef" (FetchOutcome.ok ⟨some [tokAAA, tokBBB]⟩)).1
      = [formatToken tokAAA, formatToken tokBBB] := by
  simp [getWalletBalances, show (formatToken tokAAA).symbol = "AAA" from rfl,
    show (formatToken tokBBB).symbol = "BBB" from rfl]

/-- C2 witness: two retained tokens with USD values `"1000.25"` and `"x"`
(the latter non-numeric, counted as `0`). -/
theorem C2_amended_witness :
    ∃ vm, (handler (some "0xdef") none
        (FetchOutcome.ok ⟨some [tokAAA, tokBBB]⟩)
        (FetchOutcome.ok ⟨some []⟩) (FetchOutcome.ok ⟨some []⟩) false).response
        = Except.ok vm
      ∧ vm.tokens = (getWalletBalances "0xdef"
          (FetchOutcome.ok ⟨some [tokAAA, tokBBB]⟩)).1
      ∧ vm.totalWalletUSDValue
          = "$" ++ ratToFixed2 ((vm.tokens.map usdValueOrZero).sum)
      ∧ endsInTwoDecimals vm.totalWalletUSDValue = true
      ∧ vm.totalWalletUSDValue.data.head? = some '$' :=
  C2_amended_total_is_sum_two_decimals_no_separator "0xdef" none
    (FetchOutcome.ok ⟨some [tokAAA, tokBBB]⟩)
    (FetchOutcome.ok ⟨some []⟩) (FetchOutcome.ok ⟨some []⟩)
    (by decide) (by rw [getWalletBalances_AAA_BBB]; simp)

/-- C3 (code_bug): when an exception escapes the per-resource try-blocks, the
`catch` (lines 174–177) does set the error message, but `totalWalletUSDValue`
still holds the string `"$0.00"` assigned at line 159, so evaluating
`totalWalletUSDValue.toFixed(2)` for the render raises a `TypeError` and no
view model is rendered at all. -/
theorem C3_orchestration_failure_crashes_instead_of_rendering (wa : String)
    (tab : Option String) (bU : FetchOutcome BalancesPayload)
    (aU : FetchOutcome ActivityPayload) (cU : FetchOutcome CollectiblesPayload)
    (hwa : wa ≠ "") :
    (handler (some wa) tab bU aU cU true).response
      = Except.error JsError.typeError :=
  handler_fault wa tab bU aU cU hwa

/-- C3 witness: a concrete request with an orchestration fault. -/
theorem C3_witness :
    (handler (some "0xabc") none (FetchOutcome.ok ⟨some [tokPEPE]⟩)
      (FetchOutcome.ok ⟨some []⟩) (FetchOutcome.ok ⟨some []⟩) true).response
      = Except.error JsError.typeError :=
  C3_orchestration_failure_crashes_instead_of_rendering "0xabc" none
    (FetchOutcome.ok ⟨some [tokPEPE]⟩) (FetchOutcome.ok ⟨some []⟩)
    (FetchOutcome.ok ⟨some []⟩) (by decide)

/-- C4 counterexample: for the raw amount `"abc"` (non-numeric) with decimals
`"18"`, the derived amount computed by `getWalletBalances` is `NaN`, not `0`
as the claim states. -/
theorem C4_counterexample :
    derivedAmount tokBadAmount = JsNum.nan ∧ JsNum.nan ≠ JsNum.num 0 :=
  ⟨by decide, by decide⟩

/-- C4 as amended: when both the raw amount and the decimals parse as
numbers, the derived amount equals `parseFloat(a) / 10^d` exactly as the
claim states; when either is non-numeric the derived amount is `NaN` — it
does not cause a failure (a token with a non-numeric field is still
formatted and retained), but it is not `0`. -/
theorem C4_amended_derived_amount :
    (∀ (t : RawToken) (q : ℚ) (d : ℕ), jsParseFloat t.amount = JsNum.num q →
      jsParseInt t.decimals = some (d : ℤ) →
      derivedAmount t = JsNum.num (q / 10 ^ d))
    ∧ (∀ t : RawToken, jsParseFloat t.amount = JsNum.nan ∨
        jsParseInt t.decimals = none → derivedAmount t = JsNum.nan)
    ∧ (∀ (wa : String) (t : RawToken), wa ≠ "" → t.symbol ≠ "RTFKT" →
        (getWalletBalances wa (FetchOutcome.ok ⟨some [t]⟩)).1
          = [formatToken t]) := by
  refine ⟨?_, ?_, ?_⟩
  · intro t q d h1 h2
    unfold derivedAmount
    rw [h1, h2]
    simp only [jsPow10, tenPowInt, if_pos (Int.natCast_nonneg d),
      Int.toNat_natCast]
    simp only [jsDiv]
    rw [if_neg (pow_ne_zero d (by norm_num : (10:ℚ) ≠ 0))]
  · intro t h
    rcases h with h | h
    · rw [derivedAmount, h]
      cases hy : jsPow10 (jsParseInt t.decimals) <;> rfl
    · rw [derivedAmount, h]
      cases hx : jsParseFloat t.amount <;> simp [jsDiv, jsPow10]
  · intro wa t hwa hsym
    simp [getWalletBalances, hwa,
      show (formatToken t).symbol = t.symbol from rfl, hsym]

lemma jsParseFloat_12345 : jsParseFloat "12345" = JsNum.num 12345 := by
  have h : jsParseFloat "12345"
      = JsNum.num (((digitsToNat ['1', '2', '3', '4', '5'] : ℚ)
          + (digitsToNat ([] : List Char) : ℚ) / (10 : ℚ) ^ 0)
            * tenPowInt 0) := rfl
  rw [h, show digitsToNat ['1', '2', '3', '4', '5'] = 12345 from rfl,
    show digitsToNat ([] : List Char) = 0 from rfl]
  norm_num [tenPowInt]

/-- C4 witness: the amended statement applied at a numeric token
(`"12345"` with decimals `"2"`) and at the non-numeric amount `"abc"`. -/
theorem C4_amended_witness :
    derivedAmount tokUSDC = JsNum.num (12345 / 10 ^ 2)
    ∧ derivedAmount tokBadAmount = JsNum.nan
    ∧ (getWalletBalances "0xw4" (FetchOutcome.ok ⟨some [tokUSDC]⟩)).1
        = [formatToken tokUSDC] :=
  ⟨C4_amended_derived_amount.1 tokUSDC 12345 2 jsParseFloat_12345 (by decide),
   C4_amended_derived_amount.2.1 tokBadAmount (Or.inl (by decide)),
   C4_amended_derived_amount.2.2 "0xw4" tokUSDC (by decide) (by decide)⟩

/-- C5: for every address and every upstream outcome, no token with the
denylisted spam symbol `'RTFKT'` appears in the sequence returned by
`getWalletBalances`, regardless of its other field values. -/
theorem C5_spam_symbol_absent (wa : String) (u : FetchOutcome BalancesPayload) :
    ((getWalletBalances wa u).1.all (fun t => !(t.symbol == "RTFKT"))) = true := by
  unfold getWalletBalances
  by_cases hwa : wa = ""
  · simp [hwa]
  · rw [if_neg hwa]
    cases u with
    | ok b =>
      simp only [List.all_eq_true, List.mem_filter]
      intro t ht
      exact ht.2
    | netError => simp
    | httpError s => simp
    | badJson => simp

/-- C6 counterexample: the activity fetch fails (network error) while the
balances and collectibles fetches succeed, but the successful balances
response carries zero retained tokens; the claim promises a final view model
with the (empty) balances data, the collectibles data, and an empty activity
sequence — instead the handler throws a `TypeError` and produces no view
model. -/
theorem C6_counterexample :
    (handler (some "0xabc") none (FetchOutcome.ok ⟨some []⟩)
      FetchOutcome.netError (FetchOutcome.ok ⟨some [nftOne]⟩) false).response
      = Except.error JsError.typeError :=
  handler_emptyTokens "0xabc" none (FetchOutcome.ok ⟨some []⟩)
    FetchOutcome.netError (FetchOutcome.ok ⟨some [nftOne]⟩) (by decide)
    (by simp [getWalletBalances])

/-- C6 as amended: failure isolation holds whenever the successful balances
response retains at least one token (with zero retained tokens the handler
throws instead of rendering): if the activity fetch fails while balances and
collectibles succeed, the view model carries the full balances and
collectibles data and an empty activity sequence. -/
theorem C6_amended_failure_isolation (wa : String) (tab : Option String)
    (bp : BalancesPayload) (aU : FetchOutcome ActivityPayload)
    (cp : CollectiblesPayload) (hwa : wa ≠ "")
    (ha : aU.isFail = true)
    (hne : (getWalletBalances wa (FetchOutcome.ok bp)).1 ≠ []) :
    ∃ vm, (handler (some wa) tab (FetchOutcome.ok bp) aU
        (FetchOutcome.ok cp) false).response = Except.ok vm
      ∧ vm.tokens = (getWalletBalances wa (FetchOutcome.ok bp)).1
      ∧ vm.activities = []
      ∧ vm.collectibles = cp.collectibles.getD [] := by
  refine ⟨_, handler_success wa tab (FetchOutcome.ok bp) aU
    (FetchOutcome.ok cp) hwa hne, rfl, ?_, ?_⟩
  · exact getWalletActivity_fail wa 25 aU ha
  · simp [getWalletCollectibles, hwa]

/-- C6 witness: one retained token, a failing activity fetch, one
collectible. -/
theorem C6_amended_witness :
    ∃ vm, (handler (some "0x6ab") none (FetchOutcome.ok ⟨some [tokAAA]⟩)
        FetchOutcome.netError (FetchOutcome.ok ⟨some [nftOne]⟩) false).response
        = Except.ok vm
      ∧ vm.tokens = (getWalletBalances "0x6ab"
          (FetchOutcome.ok ⟨some [tokAAA]⟩)).1
      ∧ vm.activities = []
      ∧ vm.collectibles
          = (⟨some [nftOne]⟩ : CollectiblesPayload).collectibles.getD [] :=
  C6_amended_failure_isolation "0x6ab" none ⟨some [tokAAA]⟩
    FetchOutcome.netError ⟨some [nftOne]⟩ (by decide) (by decide)
    (by simp [getWalletBalances, show (formatToken tokAAA).symbol = "AAA" from rfl])

lemma handler_empty (wa : Option String) (tab : Option String)
    (bU : FetchOutcome BalancesPayload) (aU : FetchOutcome ActivityPayload)
    (cU : FetchOutcome CollectiblesPayload) (f : Bool)
    (hwa : wa.getD "" = "") :
    handler wa tab bU aU cU f
      = ⟨Except.ok ⟨"", tab.getD "tokens", "$0.00", [], [], [], none⟩, 0⟩ := by
  simp only [handler]
  rw [hwa]
  simp only [if_pos rfl, renderResult, jsToFixedVal, jsNumToFixed2,
    initialTokens, ratToFixed2_zero]
  rfl

/-- C7: for a request whose wallet address is empty or absent, the rendered
view model has zero tokens, zero activities, zero collectibles, the total
`"$0.00"`, and no outbound HTTP call is made — whatever the upstream would
have answered and whether or not an orchestration fault would have
occurred. -/
theorem C7_empty_address_zeroed_no_calls (wa : Option String)
    (tab : Option String) (bU : FetchOutcome BalancesPayload)
    (aU : FetchOutcome ActivityPayload) (cU : FetchOutcome CollectiblesPayload)
    (f : Bool) (hwa : wa.getD "" = "") :
    handler wa tab bU aU cU f
      = ⟨Except.ok ⟨"", tab.getD "tokens", "$0.00", [], [], [], none⟩, 0⟩ :=
  handler_empty wa tab bU aU cU f hwa

/-- C7 witness: the parameter absent (`none`), and supplied but empty. -/
theorem C7_witness :
    handler none (some "nfts") FetchOutcome.netError FetchOutcome.netError
      FetchOutcome.netError false
      = ⟨Except.ok ⟨"", "nfts", "$0.00", [], [], [], none⟩, 0⟩ :=
  C7_empty_address_zeroed_no_calls none (some "nfts") FetchOutcome.netError
    FetchOutcome.netError FetchOutcome.netError false (by decide)

/-- C8: whenever the handler renders a view model, its tab field is the `tab`
query parameter if supplied and `"tokens"` otherwise, passed through with no
validation against any enumeration of tab names. -/
theorem C8_tab_passed_through (wa tab : Option String)
    (bU : FetchOutcome BalancesPayload) (aU : FetchOutcome ActivityPayload)
    (cU : FetchOutcome CollectiblesPayload) (f : Bool) (vm : ViewModel)
    (h : (handler wa tab bU aU cU f).response = Except.ok vm) :
    vm.currentTab = tab.getD "tokens" := by
  simp only [handler] at h
  split at h
  · exact renderResult_ok_inv h
  · split at h
    · exact renderResult_ok_inv h
    · exact renderResult_ok_inv h

/-- C8 witness: an arbitrary non-enumerated tab value `"whatever"` reaches
the view model unchanged. -/
theorem C8_witness :
    (⟨"", "whatever", "$0.00", [], [], [], none⟩ : ViewModel).currentTab
      = (some "whatever").getD "tokens" :=
  C8_tab_passed_through none (some "whatever") FetchOutcome.netError
    FetchOutcome.netError FetchOutcome.netError false
    ⟨"", "whatever", "$0.00", [], [], [], none⟩
    (by rw [handler_empty none (some "whatever") FetchOutcome.netError
      FetchOutcome.netError FetchOutcome.netError false rfl]
        ; rfl)

/-- C9: on a successful balances response, `getWalletBalances` returns, in
upstream order, exactly the upstream records that survive the spam filter,
each with every original field unchanged; the only difference of a returned
record from its upstream original is the two added derived fields (so every
returned token is its own raw part re-formatted). -/
theorem C9_order_and_fields_preserved (wa : String) (bp : BalancesPayload)
    (hwa : wa ≠ "") :
    ((getWalletBalances wa (FetchOutcome.ok bp)).1.map Token.toRaw
        = (bp.balances.getD []).filter (fun r => !(r.symbol == "RTFKT")))
    ∧ ∀ t ∈ (getWalletBalances wa (FetchOutcome.ok bp)).1,
        t = formatToken (Token.toRaw t) := by
  constructor
  · simp only [getWalletBalances, if_neg hwa]
    exact map_toRaw_filter _
  · intro t ht
    simp only [getWalletBalances, if_neg hwa] at ht
    rcases List.mem_filter.mp ht with ⟨hmem, _⟩
    rcases List.mem_map.mp hmem with ⟨r, _, rfl⟩
    rw [toRaw_formatToken]

/-- C9 witness: a concrete successful response with one retained token. -/
theorem C9_witness :
    ((getWalletBalances "0x9" (FetchOutcome.ok ⟨some [tokAAA]⟩)).1.map
        Token.toRaw
        = ((⟨some [tokAAA]⟩ : BalancesPayload).balances.getD []).filter
            (fun r => !(r.symbol == "RTFKT")))
    ∧ ∀ t ∈ (getWalletBalances "0x9" (FetchOutcome.ok ⟨some [tokAAA]⟩)).1,
        t = formatToken (Token.toRaw t) :=
  C9_order_and_fields_preserved "0x9" ⟨some [tokAAA]⟩ (by decide)

/-- C10: the pre-fetch aggregation loop (lines 150–157) runs over the
`tokens` variable, which is always the empty array at that point, so the
handler is equivalent to the same handler with the loop removed, and
immediately before the fetches are awaited `totalWalletUSDValue` is always
the currency-formatted value of `0` (the string `"$0.00"`); the rendered
total therefore comes only from the post-fetch reduce. -/
theorem C10_pre_fetch_loop_is_dead_code (wa tab : Option String)
    (bU : FetchOutcome BalancesPayload) (aU : FetchOutcome ActivityPayload)
    (cU : FetchOutcome CollectiblesPayload) (f : Bool) :
    handler wa tab bU aU cU f = handlerWithoutPreFetchLoop wa tab bU aU cU f
    ∧ handlerPreAwaitTotal = JsVal.str "$0.00" :=
  ⟨rfl, by
    rw [show handlerPreAwaitTotal
      = JsVal.str (formatCurrency (JsNum.num 0)) from rfl, formatCurrency_zero]⟩
